import Mathlib

/-!
Formal model of the AI-Diagram Generation & Normalization Pipeline of the
TechDraw repository (`AIService` in the source, together with its helpers
`generateId` and `SettingsService.getAPIKey`).

The TypeScript source manipulates untyped JSON values produced by
`JSON.parse`; we embed those as the inductive type `Json` below, with
numbers modelled as rationals (JavaScript numbers are IEEE doubles; no
claim depends on floating-point rounding).  JavaScript exceptions are
modelled with `Except String`; the string is the error message.
`undefined` is modelled as `Option.none` where it can occur.
-/

namespace TechDraw

/-- A JSON value as produced by `JSON.parse`.  Object fields keep their
textual order; duplicate keys are resolved at access time with the
last-occurrence rule, matching `JSON.parse` semantics. -/
inductive Json where
  | null : Json
  | bool (b : Bool) : Json
  | num (q : ℚ) : Json
  | str (s : String) : Json
  | arr (elems : List Json) : Json
  | obj (fields : List (String × Json)) : Json

/-- JavaScript truthiness of a JSON value: `null`, `false`, `0` and `""`
are falsy; arrays and objects are always truthy. -/
def Json.truthy : Json → Bool
  | .null => false
  | .bool b => b
  | .num q => q != 0
  | .str s => s ≠ ""
  | .arr _ => true
  | .obj _ => true

/-- Last-occurrence lookup in an object's field list (`JSON.parse` keeps
the last of duplicate keys). -/
def lookupLast (fields : List (String × Json)) (key : String) : Option Json :=
  fields.foldl (fun acc p => if p.1 = key then some p.2 else acc) none

/-- Pure JavaScript property read `j.key` for a value that is known not to
be `null`: objects yield their field (or `undefined` = `none`), every
non-object value yields `undefined`. -/
def jfield : Json → String → Option Json
  | .obj fields, key => lookupLast fields key
  | _, _ => none

/-- JavaScript property read `j.key` including the `TypeError` thrown when
`j` is `null`. -/
def getProp : Json → String → Except String (Option Json)
  | .null, key => .error ("TypeError: Cannot read properties of null (reading " ++ key ++ ")")
  | j, key => .ok (jfield j key)

/-- JavaScript `v || d`: the provided value when it is present and truthy,
the default otherwise (`undefined` counts as falsy). -/
def jsOr (v : Option Json) (d : Json) : Json :=
  match v with
  | some j => if j.truthy then j else d
  | none => d

/-- Optional chaining `base?.key` where `base` may be `undefined`
(`none`): yields `undefined` when the base is `undefined` or `null`, and
an ordinary property read otherwise. -/
def optChain (base : Option Json) (key : String) : Option Json :=
  match base with
  | none => none
  | some .null => none
  | some j => jfield j key

/-! ## A model of `JSON.parse`

The normalizer feeds untrusted model text to `JSON.parse`.  We embed that
parser as a fuel-indexed recursive-descent parser over the character list
of the input, following the JSON grammar (RFC 8259) that `JSON.parse`
implements: literals, strings with escapes, numbers with optional sign,
fraction and exponent, arrays and objects.  Numbers are read as exact
rationals rather than IEEE doubles; no claim depends on rounding. -/

/-- JSON insignificant whitespace. -/
def isJsonWs (c : Char) : Bool :=
  c == ' ' || c == '\t' || c == '\n' || c == '\r'

/-- Skip insignificant whitespace. -/
def skipWs (cs : List Char) : List Char :=
  cs.dropWhile isJsonWs

/-- ASCII decimal digit test (codes 48–57). -/
def isDigitCh (c : Char) : Bool :=
  48 ≤ c.toNat && c.toNat ≤ 57

/-- Value of a decimal digit character. -/
def digitVal (c : Char) : Nat :=
  c.toNat - 48

/-- Value of a hexadecimal digit character, if it is one (codes 48–57,
97–102, 65–70). -/
def hexVal (c : Char) : Option Nat :=
  let n := c.toNat
  if 48 ≤ n && n ≤ 57 then some (n - 48)
  else if 97 ≤ n && n ≤ 102 then some (n - 87)
  else if 65 ≤ n && n ≤ 70 then some (n - 55)
  else none

/-- Parse the body of a JSON string after the opening quote, handling the
escape sequences `JSON.parse` accepts; returns the decoded characters and
the input remaining after the closing quote.  Raw control characters
below U+0020 are rejected, as in the JSON grammar. -/
def parseStringBody : Nat → List Char → Option (List Char × List Char)
  | 0, _ => none
  | _, [] => none
  | fuel + 1, c :: cs =>
    if c == '"' then some ([], cs)
    else if c == '\\' then
      match cs with
      | [] => none
      | e :: cs2 =>
        let cont := fun (ch : Char) (rest : List Char) =>
          match parseStringBody fuel rest with
          | some (body, rem) => some (ch :: body, rem)
          | none => none
        if e == '"' then cont '"' cs2
        else if e == '\\' then cont '\\' cs2
        else if e == '/' then cont '/' cs2
        else if e == 'b' then cont (Char.ofNat 8) cs2
        else if e == 'f' then cont (Char.ofNat 12) cs2
        else if e == 'n' then cont '\n' cs2
        else if e == 'r' then cont '\r' cs2
        else if e == 't' then cont '\t' cs2
        else if e == 'u' then
          match cs2 with
          | h1 :: h2 :: h3 :: h4 :: cs3 =>
            match hexVal h1, hexVal h2, hexVal h3, hexVal h4 with
            | some a, some b, some c2, some d =>
              cont (Char.ofNat (((a * 16 + b) * 16 + c2) * 16 + d)) cs3
            | _, _, _, _ => none
          | _ => none
        else none
    else if c.toNat < 32 then none
    else
      match parseStringBody fuel cs with
      | some (body, rem) => some (c :: body, rem)
      | none => none

/-- Longest run of decimal digits at the head of the input, and the rest. -/
def takeDigits (cs : List Char) : List Char × List Char :=
  (cs.takeWhile isDigitCh, cs.dropWhile isDigitCh)

/-- Numeric value of a digit run. -/
def digitsToNat (ds : List Char) : Nat :=
  ds.foldl (fun acc c => acc * 10 + digitVal c) 0

/-- Integer part of a JSON number: `0`, or a nonzero digit followed by
digits (leading zeros are rejected, as by `JSON.parse`). -/
def parseIntPart : List Char → Option (List Char × List Char)
  | [] => none
  | c :: cs =>
    if c == '0' then some ([c], cs)
    else if isDigitCh c then
      let (ds, rest) := takeDigits cs
      some (c :: ds, rest)
    else none

/-- Optional fraction part `.digits` of a JSON number. -/
def parseFrac : List Char → Option (List Char × List Char)
  | '.' :: rest =>
    let (ds, r) := takeDigits rest
    if ds.isEmpty then none else some (ds, r)
  | cs => some ([], cs)

/-- Optional exponent part of a JSON number. -/
def parseExp : List Char → Option (Int × List Char)
  | [] => some (0, [])
  | c :: rest =>
    if c == 'e' || c == 'E' then
      let (sign, rest2) : Int × List Char :=
        match rest with
        | '+' :: r => (1, r)
        | '-' :: r => (-1, r)
        | r => (1, r)
      let (ds, r) := takeDigits rest2
      if ds.isEmpty then none else some (sign * (digitsToNat ds : Int), r)
    else some (0, c :: rest)

/-- Parse a JSON number at the head of the input into an exact rational. -/
def parseNumber (cs : List Char) : Option (ℚ × List Char) :=
  let (neg, cs1) :=
    match cs with
    | '-' :: rest => (true, rest)
    | _ => (false, cs)
  match parseIntPart cs1 with
  | none => none
  | some (ids, cs2) =>
    match parseFrac cs2 with
    | none => none
    | some (fds, cs3) =>
      match parseExp cs3 with
      | none => none
      | some (e, cs4) =>
        let mant : ℚ := (digitsToNat (ids ++ fds) : ℚ)
        let q : ℚ :=
          if fds.isEmpty && e == 0 then mant
          else mant / (10 : ℚ) ^ (fds.length : ℕ) * (10 : ℚ) ^ (e : ℤ)
        some (if neg then -q else q, cs4)

mutual

/-- Parse one JSON value (with leading whitespace) at the head of the
input; `fuel` bounds the recursion depth and is chosen large enough at
the top level that it is never exhausted on any input. -/
def parseVal : Nat → List Char → Option (Json × List Char)
  | 0, _ => none
  | fuel + 1, cs =>
    match skipWs cs with
    | 'n' :: 'u' :: 'l' :: 'l' :: r => some (.null, r)
    | 't' :: 'r' :: 'u' :: 'e' :: r => some (.bool true, r)
    | 'f' :: 'a' :: 'l' :: 's' :: 'e' :: r => some (.bool false, r)
    | '"' :: r =>
      match parseStringBody (r.length + 1) r with
      | some (body, rem) => some (.str (String.mk body), rem)
      | none => none
    | '[' :: r =>
      match skipWs r with
      | ']' :: r2 => some (.arr [], r2)
      | r2 =>
        match parseElems fuel r2 with
        | some (es, rem) => some (.arr es, rem)
        | none => none
    | '{' :: r =>
      match skipWs r with
      | '}' :: r2 => some (.obj [], r2)
      | r2 =>
        match parseFields fuel r2 with
        | some (fs, rem) => some (.obj fs, rem)
        | none => none
    | cs2 =>
      match parseNumber cs2 with
      | some (q, rem) => some (.num q, rem)
      | none => none

/-- Parse the comma-separated elements of a non-empty JSON array, up to
and including the closing bracket. -/
def parseElems : Nat → List Char → Option (List Json × List Char)
  | 0, _ => none
  | fuel + 1, cs =>
    match parseVal fuel cs with
    | none => none
    | some (v, rem) =>
      match skipWs rem with
      | ',' :: r2 =>
        match parseElems fuel r2 with
        | some (vs, rem2) => some (v :: vs, rem2)
        | none => none
      | ']' :: r2 => some ([v], r2)
      | _ => none

/-- Parse the comma-separated members of a non-empty JSON object, up to
and including the closing brace. -/
def parseFields : Nat → List Char → Option (List (String × Json) × List Char)
  | 0, _ => none
  | fuel + 1, cs =>
    match skipWs cs with
    | '"' :: r =>
      match parseStringBody (r.length + 1) r with
      | none => none
      | some (keyChars, rem) =>
        match skipWs rem with
        | ':' :: r2 =>
          match parseVal fuel r2 with
          | none => none
          | some (v, rem2) =>
            match skipWs rem2 with
            | ',' :: r3 =>
              match parseFields fuel r3 with
              | some (fs, rem3) => some ((String.mk keyChars, v) :: fs, rem3)
              | none => none
            | '}' :: r3 => some ([(String.mk keyChars, v)], r3)
            | _ => none
        | _ => none
    | _ => none

end

/-- Model of `JSON.parse`: parse the whole string as one JSON value with
optional surrounding whitespace; `none` models the `SyntaxError` thrown
on malformed input. -/
def jsonParse (s : String) : Option Json :=
  match parseVal (2 * s.length + 2) s.data with
  | some (v, rem) => if (skipWs rem).isEmpty then some v else none
  | none => none

/-! ## The brace / bracket extraction step

`parseAIResponse` first applies the regex `\x7b[\s\S]*\x7d` to the raw
response and parses the match if there is one, the raw response
otherwise.  For this regex a match exists exactly when some `{` is
followed (not necessarily immediately) by some `}`, and the
leftmost-longest match runs from the first `{` to the last `}` of the
string.  `refineDescription` does the same with `[` and `]`. -/

/-- Index of the last occurrence of `c`, if any. -/
def lastIdxOf (c : Char) (cs : List Char) : Option Nat :=
  match cs.reverse.findIdx? (· == c) with
  | some k => some (cs.length - 1 - k)
  | none => none

/-- The substring from the first `openCh` to the last `closeCh` when the
first `openCh` precedes the last `closeCh` (the regex match), the whole
string otherwise (no match: the raw text is parsed directly). -/
def extractDelimited (openCh closeCh : Char) (s : String) : String :=
  let cs := s.data
  match cs.findIdx? (· == openCh), lastIdxOf closeCh cs with
  | some i, some j =>
    if i < j then String.mk ((cs.drop i).take (j - i + 1)) else s
  | _, _ => s

/-- The JSON-object extraction `response.match(/\x7b[\s\S]*\x7d/)` used by
`parseAIResponse`. -/
def extractBraces (s : String) : String :=
  extractDelimited '{' '}' s

/-- The JSON-array extraction `response.match(/[[\s\S]*]/)` used by
`refineDescription`. -/
def extractBrackets (s : String) : String :=
  extractDelimited '[' ']' s

/-! ## String conversion used in template literals

`rebuildNode` builds an icon path with the template literal
`/icons/$\x7bnode.data.icon\x7d.png`, which converts the interpolated
value with JavaScript string conversion.  We model that conversion for
JSON values; the array case follows `Array.prototype.join(",")`, where a
`null` element converts to the empty string. -/

/-- Whether a JSON value is `null`. -/
def Json.isNull : Json → Bool
  | .null => true
  | _ => false

/-- JavaScript string conversion of a JSON value. -/
def jsToString : Json → String
  | .null => "null"
  | .bool b => cond b "true" "false"
  | .num q => if q.den = 1 then toString q.num else toString q
  | .str s => s
  | .arr xs =>
    String.intercalate "," (xs.attach.map fun x =>
      if x.1.isNull then "" else jsToString x.1)
  | .obj _ => "[object Object]"
decreasing_by
  simp_wf
  have hm := List.sizeOf_lt_of_mem x.2
  omega

/-! ## Output data model

The source returns `DiagramGenerationResponse` objects whose `nodes` and
`edges` follow the `@xyflow/react` shapes.  The TypeScript interfaces
declare string-typed fields, but the parser passes truthy parsed values
through verbatim, so at runtime a field holds an arbitrary JSON value;
the embedding types such fields as `Json`.  A field is `Option Json`
exactly where the source can leave it `undefined`. -/

/-- The `data` record of a node produced by the pipeline.  `title` and
`content` are always set; the color fields and `iconPath` are `none`
where the source leaves them `undefined` (the fallback diagram's `Start`
and `End` nodes omit the colors). -/
structure CustomNodeData where
  title : Json
  content : Json
  backgroundColor : Option Json
  borderColor : Option Json
  textColor : Option Json
  iconPath : Option Json

/-- A node as returned by the pipeline (the `Node` shape of the canvas
library). -/
structure DiagramNode where
  id : Json
  type : String
  position : Json
  data : CustomNodeData

/-- An edge as returned by the pipeline (the `Edge` shape of the canvas
library).  `parseAIResponse` always sets `type` and `animated`; the
fallback diagram's edges leave them `undefined` (`none`). -/
structure DiagramEdge where
  id : Json
  source : Option Json
  target : Option Json
  type : Option Json
  label : Option Json
  animated : Option Json

/-- The value `generateDiagram` and `parseAIResponse` resolve with. -/
structure DiagramGenerationResponse where
  title : Json
  description : Json
  nodes : List DiagramNode
  edges : List DiagramEdge
  suggestions : Json

/-! ## The response normalizer (`parseAIResponse`)

`generateId` in the source is `Date.now()` concatenated with a random
base-36 suffix; it is nondeterministic, so the embedding passes an
oracle `gen : Nat → String` giving the result of the k-th call within
one `parseAIResponse` run. -/

/-- The grid position synthesized for the node at `index` when the model
omits `position`:
`\x7b x: (index % 3) * 300 + 100, y: Math.floor(index / 3) * 200 + 100 \x7d`. -/
def defaultPosition (index : Nat) : Json :=
  .obj [("x", .num ((index % 3 * 300 + 100 : ℕ) : ℚ)),
        ("y", .num ((index / 3 * 200 + 100 : ℕ) : ℚ))]

/-- The icon path derived from a bare `icon` name when `iconPath` is
absent: `/icons/$\x7bnode.data.icon\x7d.png` when `node.data?.icon` is
truthy, `undefined` otherwise. -/
def iconFromName (datav : Option Json) : Option Json :=
  match optChain datav "icon" with
  | some ic => if ic.truthy then some (.str ("/icons/" ++ jsToString ic ++ ".png")) else none
  | none => none

/-- The field-by-field node reconstruction of the loop body (source
lines 366–383), for a node element that is not `null` (so that its
property reads cannot throw): choose the id (consuming one `generateId`
call when the supplied id is not truthy), default the position to the
grid slot, default every `data` field, and force `type` to `custom`.
Returns the canonical node together with the updated call counter. -/
def rebuildNodeCore (gen : Nat → String) (index k : Nat) (node : Json) : DiagramNode × Nat :=
  let idk : Json × Nat :=
    match jfield node "id" with
    | some j => if j.truthy then (j, k) else (Json.str (gen k), k + 1)
    | none => (Json.str (gen k), k + 1)
  let position := jsOr (jfield node "position") (defaultPosition index)
  let datav := jfield node "data"
  let title := jsOr (optChain datav "title")
    (jsOr (optChain datav "label") (.str ("Component " ++ toString (index + 1))))
  let content := jsOr (optChain datav "content")
    (jsOr (optChain datav "description") (.str "Component description"))
  let backgroundColor := jsOr (optChain datav "backgroundColor") (.str "#ffffff")
  let borderColor := jsOr (optChain datav "borderColor") (.str "#e5e7eb")
  let textColor := jsOr (optChain datav "textColor") (.str "#1f2937")
  let iconPath :=
    match optChain datav "iconPath" with
    | some j => if j.truthy then some j else iconFromName datav
    | none => iconFromName datav
  ({ id := idk.1, type := "custom", position := position,
     data := { title := title, content := content,
               backgroundColor := some backgroundColor,
               borderColor := some borderColor,
               textColor := some textColor,
               iconPath := iconPath } }, idk.2)

/-- Rebuild one canonical node from the `index`-th element of the parsed
`nodes` array (source lines 365–384).  Reading `node.id` throws when the
element is `null`, which the caller's catch turns into the fallback
diagram; otherwise the reconstruction cannot throw. -/
def rebuildNode (gen : Nat → String) (index k : Nat) (node : Json) :
    Except String (DiagramNode × Nat) :=
  match getProp node "id" with
  | .error e => .error e
  | .ok _ => .ok (rebuildNodeCore gen index k node)

/-- The `forEach` loop over the parsed `nodes` array, threading the node
index and the `generateId` call counter. -/
def rebuildNodes (gen : Nat → String) : Nat → Nat → List Json → Except String (List DiagramNode)
  | _, _, [] => .ok []
  | index, k, node :: rest =>
    match rebuildNode gen index k node with
    | .error e => .error e
    | .ok (n, k2) =>
      match rebuildNodes gen (index + 1) k2 rest with
      | .error e => .error e
      | .ok ns => .ok (n :: ns)

/-- The field-by-field edge reconstruction of the `map` body (source
lines 388–395), for an edge element that is not `null`: default the id
to `edge-index`, the type to `smoothstep` and `animated` to `false`, and
pass `source`, `target` and `label` through verbatim. -/
def rebuildEdgeCore (index : Nat) (edge : Json) : DiagramEdge :=
  { id := jsOr (jfield edge "id") (.str ("edge-" ++ toString index))
    source := jfield edge "source"
    target := jfield edge "target"
    type := some (jsOr (jfield edge "type") (.str "smoothstep"))
    label := jfield edge "label"
    animated := some (jsOr (jfield edge "animated") (.bool false)) }

/-- Rebuild one canonical edge from the `index`-th element of the parsed
`edges` array.  Reading `edge.id` throws when the element is `null`. -/
def rebuildEdge (index : Nat) (edge : Json) : Except String DiagramEdge :=
  match getProp edge "id" with
  | .error e => .error e
  | .ok _ => .ok (rebuildEdgeCore index edge)

/-- The `map` over the parsed `edges` array. -/
def rebuildEdges : Nat → List Json → Except String (List DiagramEdge)
  | _, [] => .ok []
  | index, edge :: rest =>
    match rebuildEdge index edge with
    | .error e => .error e
    | .ok e =>
      match rebuildEdges (index + 1) rest with
      | .error e2 => .error e2
      | .ok es => .ok (e :: es)

/-- The expression `(parsed.key || []).forEach/map`: reading the field
throws when `parsed` is `null`; a falsy field defaults to `[]`; a truthy
non-array field makes the method lookup throw. -/
def elemsOf (parsed : Json) (key : String) (method : String) : Except String (List Json) :=
  match getProp parsed key with
  | .error e => .error e
  | .ok v =>
    match jsOr v (.arr []) with
    | .arr xs => .ok xs
    | _ => .error ("TypeError: " ++ method ++ " is not a function")

/-- The fixed 3-node fallback diagram (source lines 412–466), returned
whenever the try-block of `parseAIResponse` throws. -/
def createFallbackDiagram (description : String) : DiagramGenerationResponse :=
  { title := .str "Simple Diagram"
    description := .str description
    nodes :=
      [ { id := .str "start-1", type := "custom",
          position := .obj [("x", .num 100), ("y", .num 50)],
          data := { title := .str "Start", content := .str "Starting point",
                    backgroundColor := none, borderColor := none,
                    textColor := none, iconPath := none } },
        { id := .str "process-1", type := "custom",
          position := .obj [("x", .num 100), ("y", .num 150)],
          data := { title := .str "Process", content := .str description,
                    backgroundColor := some (.str "#ffffff"),
                    borderColor := some (.str "#d1d5db"),
                    textColor := some (.str "#1f2937"), iconPath := none } },
        { id := .str "end-1", type := "custom",
          position := .obj [("x", .num 100), ("y", .num 250)],
          data := { title := .str "End", content := .str "Completion point",
                    backgroundColor := none, borderColor := none,
                    textColor := none, iconPath := none } } ]
    edges :=
      [ { id := .str "e1-2", source := some (.str "start-1"),
          target := some (.str "process-1"),
          type := none, label := none, animated := none },
        { id := .str "e2-3", source := some (.str "process-1"),
          target := some (.str "end-1"),
          type := none, label := none, animated := none } ]
    suggestions := .arr [.str "Add more detail to your description for better results"] }

/-- The body of the `try` block of `parseAIResponse` (source lines
353–403): extract the braced substring, parse it as JSON, rebuild nodes
and edges, and default the top-level fields.  Every JavaScript throw is
an `Except.error`. -/
def parseAIResponseTry (gen : Nat → String) (response originalDescription : String) :
    Except String DiagramGenerationResponse :=
  let jsonString := extractBraces response
  match jsonParse jsonString with
  | none => .error "SyntaxError: Unexpected token in JSON"
  | some parsed =>
    match elemsOf parsed "nodes" "forEach" with
    | .error e => .error e
    | .ok nodeList =>
      match rebuildNodes gen 0 0 nodeList with
      | .error e => .error e
      | .ok allNodes =>
        match elemsOf parsed "edges" "map" with
        | .error e => .error e
        | .ok edgeList =>
          match rebuildEdges 0 edgeList with
          | .error e => .error e
          | .ok edges =>
            .ok { title := jsOr (jfield parsed "title") (.str "Generated Diagram")
                  description := jsOr (jfield parsed "description") (.str originalDescription)
                  nodes := allNodes
                  edges := edges
                  suggestions := jsOr (jfield parsed "suggestions") (.arr []) }

/-- `parseAIResponse` (source lines 352–410): the try-block body with its
catch-all handler substituting the fallback diagram.  The codomain stays
in `Except` to record that the function as a whole could in principle
throw; the theorems show it never does. -/
def parseAIResponse (gen : Nat → String) (response originalDescription : String) :
    Except String DiagramGenerationResponse :=
  match parseAIResponseTry gen response originalDescription with
  | .ok r => .ok r
  | .error _ => .ok (createFallbackDiagram originalDescription)

/-! ## Providers, request shape and the prompt builder -/

/-- The three registered provider ids (`AIProvider['id']`). -/
inductive ProviderId where
  | openrouter
  | groq
  | gemini
  deriving DecidableEq

/-- The literal id string of a provider, as interpolated into error
messages. -/
def ProviderId.idString : ProviderId → String
  | .openrouter => "openrouter"
  | .groq => "groq"
  | .gemini => "gemini"

/-- The diagram types of `DiagramGenerationRequest.options.diagramType`. -/
inductive DiagramType where
  | container
  | architecture
  | flowchart
  deriving DecidableEq

/-- The literal string of a diagram type, as interpolated into the
prompt. -/
def DiagramType.idString : DiagramType → String
  | .container => "container"
  | .architecture => "architecture"
  | .flowchart => "flowchart"

/-- The complexity levels of `DiagramGenerationRequest.options.complexity`. -/
inductive Complexity where
  | simple
  | medium
  | complex
  deriving DecidableEq

/-- The literal string of a complexity level. -/
def Complexity.idString : Complexity → String
  | .simple => "simple"
  | .medium => "medium"
  | .complex => "complex"

/-- The optional `options` record of a generation request. -/
structure DiagramGenerationOptions where
  includeIcons : Option Bool := none
  diagramType : Option DiagramType := none
  complexity : Option Complexity := none

/-- A `DiagramGenerationRequest`: the input to `generateDiagram`. -/
structure DiagramGenerationRequest where
  description : String
  provider : ProviderId
  model : Option String := none
  options : Option DiagramGenerationOptions := none

/-- An entry of the icon catalog; `buildPrompt` reads only `name`. -/
structure IconInfo where
  name : String

/-- The per-diagram-type color triple. -/
structure ColorScheme where
  background : String
  border : String
  text : String

/-- The static per-diagram-type policy record of
`getDiagramTypeConfig`. -/
structure DiagramTypeConfig where
  specificInstructions : String
  layoutStyle : String
  layoutRules : String
  nodeRules : String
  edgeType : String
  edgeRules : String
  edgeLabel : String
  animated : Bool
  colorScheme : ColorScheme

/-- `getDiagramTypeConfig` (source lines 232–298).  The source looks the
type up in a string-keyed record with `configs[type] || configs.container`;
with the typed enum the fallback branch is unreachable, and the
`container` entry is exactly what an unknown string would produce. -/
def getDiagramTypeConfig : DiagramType → DiagramTypeConfig
  | .flowchart =>
    { specificInstructions := "FLOWCHART SPECIFIC RULES:\n- Use simple, clean node styling with minimal decoration\n- Nodes should flow top-to-bottom or left-to-right\n- Use only solid, straight edges - ABSOLUTELY NO ANIMATION\n- Include decision points (diamond shapes can be simulated with styling)\n- Keep icons simple and minimal"
      layoutStyle := "top-to-bottom or left-to-right flow with clear progression"
      layoutRules := "Arrange in a clear sequential flow from start to end. Group related steps together. Use vertical or horizontal alignment."
      nodeRules := "Each node represents a step or decision. Use simple, clean styling. Minimal decoration."
      edgeType := "straight"
      edgeRules := "Use solid, straight arrows showing direction of flow. Label each edge with action or condition."
      edgeLabel := "Action or condition"
      animated := false
      colorScheme := { background := "#f0f9ff", border := "#3b82f6", text := "#1e40af" } }
  | .container =>
    { specificInstructions := "CONTAINER DIAGRAM SPECIFIC RULES:\n- Use large boxes representing containers/systems\n- IMPORTANT: Show grouped stacks within containers (multiple components per container)\n- Each container can hold multiple services/components\n- Use clear visual grouping for stacks within containers\n- Edges can be animated to show data flow\n- Use professional blue/gray color scheme"
      layoutStyle := "grouped by containers with nested stacks inside"
      layoutRules := "Group components into containers. Show container boundaries clearly. Nest multiple stacks/services within each container."
      nodeRules := "Each node is either a container (large box) or a service/stack within a container. Show hierarchy and grouping."
      edgeType := "smoothstep"
      edgeRules := "Use smoothstep edges between containers and services. Show clear data/message flow between components."
      edgeLabel := "Data flow or API call"
      animated := true
      colorScheme := { background := "#ffffff", border := "#6b7280", text := "#1f2937" } }
  | .architecture =>
    { specificInstructions := "SYSTEM ARCHITECTURE SPECIFIC RULES:\n- Show high-level system components and their relationships\n- Use HIERARCHICAL layout - top-to-bottom or left-to-right\n- NO CIRCULAR CONNECTIONS - only clear directional flows\n- Show both brief overview and detailed component interactions\n- Use clear, straight edges showing information flow direction"
      layoutStyle := "hierarchical top-to-bottom or left-to-right with clear directional flow"
      layoutRules := "Arrange in strict hierarchy. Show clear information flow from sources to sinks. NO circular dependencies or connections."
      nodeRules := "Each node is a major subsystem or component. Show clear boundaries and responsibilities. Use large, prominent boxes."
      edgeType := "straight"
      edgeRules := "Use only straight edges with clear directional arrows. Show unidirectional data/control flow. Label with data type or protocol."
      edgeLabel := "Data or control flow"
      animated := false
      colorScheme := { background := "#f0fdfa", border := "#14b8a6", text := "#134e4a" } }

/-- Whether `pat` is a prefix of the character list. -/
def listHasPre : List Char → List Char → Bool
  | [], _ => true
  | _ :: _, [] => false
  | p :: ps, c :: cs => p == c && listHasPre ps cs

/-- Whether `pat` occurs as a contiguous sublist. -/
def listHasSub (pat : List Char) : List Char → Bool
  | [] => listHasPre pat []
  | c :: cs => listHasPre pat (c :: cs) || listHasSub pat cs

/-- The alternatives of the workflow-keyword regex
`/workflow|process flow|flowchart|steps|procedure|sequential/i`. -/
def workflowKeywords : List String :=
  ["workflow", "process flow", "flowchart", "steps", "procedure", "sequential"]

/-- ASCII lowercasing of one character (the `i` flag of the keyword
regex; the keywords are ASCII). -/
def charLower (c : Char) : Char :=
  if 'A' ≤ c && c ≤ 'Z' then Char.ofNat (c.toNat + 32) else c

/-- The case-insensitive keyword test
`workflowKeywords.test(description)` of `buildPrompt` (source lines
129–130). -/
def isWorkflowType (description : String) : Bool :=
  workflowKeywords.any fun kw => listHasSub kw.data (description.data.map charLower)

/-- The edge-animation override of `buildPrompt` (source lines 136–145):
start from the config's static default, then for `container` force the
animation off when the description matches a workflow keyword and on
when it does not. -/
def animatedEdgesFor (diagramType : DiagramType) (description : String) : Bool :=
  let isW := isWorkflowType description
  let typeConfig := getDiagramTypeConfig diagramType
  if diagramType == DiagramType.container && isW then false
  else if diagramType == DiagramType.container && !isW then true
  else typeConfig.animated

/-- `buildPrompt` (source lines 119–230): defaults `diagramType` to
`container` and `complexity` to `medium`, truncates the icon list to 150
names, computes the animation override, and emits the literal prompt
template with those values interpolated. -/
def buildPrompt (request : DiagramGenerationRequest) (availableIcons : List IconInfo) : String :=
  let description := request.description
  let options := request.options.getD {}
  let diagramType := options.diagramType.getD .container
  let complexity := options.complexity.getD .medium
  let allIconNames := availableIcons.map (·.name)
  let iconList := String.intercalate ", " (allIconNames.take 150)
  let typeConfig := getDiagramTypeConfig diagramType
  let animatedEdges := animatedEdgesFor diagramType description
  "\nTask: Generate a professional " ++ diagramType.idString
    ++ " diagram based on the given description.\n\nInput:\n- Description: \""
    ++ description ++ "\"\n- Diagram Type: " ++ diagramType.idString
    ++ "\n- Complexity Level: " ++ complexity.idString
    ++ "\n- Available Icons (must use exact names): " ++ iconList
    ++ "\n\n" ++ typeConfig.specificInstructions
    ++ "\n\nOutput Requirements:\n- Strictly return JSON only (no markdown, no extra text).\n- Use the exact JSON schema defined below.\n- Each node must have a unique ID, proper position, and use an available icon.\n- Layout must follow "
    ++ typeConfig.layoutStyle
    ++ ".\n\nJSON Schema:\n\x7b\n  \"title\": \"Clear, professional diagram title\",\n  \"description\": \"One-sentence overview of the system/process\",\n  \"nodes\": [\n    \x7b\n      \"id\": \"unique-id\",\n      \"type\": \"custom\",\n      \"position\": \x7b\"x\": number, \"y\": number\x7d,\n      \"data\": \x7b\n        \"title\": \"Component Name\",\n        \"content\": \"Brief component role/function\",\n        \"backgroundColor\": \""
    ++ typeConfig.colorScheme.background
    ++ "\",\n        \"borderColor\": \"" ++ typeConfig.colorScheme.border
    ++ "\",\n        \"textColor\": \"" ++ typeConfig.colorScheme.text
    ++ "\",\n        \"iconPath\": \"/icons/exact-icon-name-from-available-list.png\"\n      \x7d\n    \x7d\n  ],\n  \"edges\": [\n    \x7b\n      \"id\": \"edge-id\",\n      \"source\": \"source-node-id\",\n      \"target\": \"target-node-id\",\n      \"type\": \""
    ++ typeConfig.edgeType
    ++ "\",\n      \"label\": \"" ++ typeConfig.edgeLabel
    ++ "\",\n      \"animated\": " ++ cond animatedEdges "true" "false"
    ++ "\n    \x7d\n  ],\n  \"suggestions\": [\n    \"Improvement suggestion 1\",\n    \"Enhancement suggestion 2\"\n  ]\n\x7d\n\nDiagram Style Guidelines:\n1. **Node Rules**\n   - Use only \"custom\" node type.\n   - "
    ++ typeConfig.nodeRules
    ++ "\n   - Use appropriate background colors: " ++ typeConfig.colorScheme.background
    ++ "\n   - Include relevant icons from the available list.\n\n2. **Layout Rules**\n   - "
    ++ typeConfig.layoutRules
    ++ "\n   - Minimum spacing: 200px between nodes, 300px between layers.\n   - Use consistent alignment and distribution.\n\n3. **Edge Rules**\n   - "
    ++ typeConfig.edgeRules
    ++ "\n   - " ++ cond typeConfig.animated "Use animated edges to show flow" "Use solid edges (NO animation)"
    ++ "\n   - No orphan nodes; all must connect logically.\n\n4. **Complexity Rules**\n   - For \"simple\", include 3–5 nodes.  \n   - For \"medium\", include 6–9 nodes.  \n   - For \"complex\", include 10–15 nodes.  \n\n5. **Professional Standards**\n   - All IDs must be unique and consistent.  \n   - Nodes must be descriptive but concise.\n   - Use only properties defined in the schema.  \n\nFinal Instruction:\n- Read the description carefully, map to correct diagram type, and generate only valid JSON output following the schema above.\n- Ensure the diagram is visually balanced, semantically accurate, and ready to render in a diagramming canvas.\n"

/-! ## The generation facade (`generateDiagram`)

The network clients (`generateWithOpenRouter` / `generateWithGroq` /
`generateWithGemini`) perform one outbound call each and extract the
completion text; the embedding abstracts them as a `dispatch` function
from provider and prompt to either the raw response text or the thrown
error's message.  The credential store (`SettingsService.getAPIKey`,
part_008 lines 33–35) is the read-only map `keys`; `undefined` is
`none`.  The icon catalog is the list `icons`, and `gen` is the
`generateId` oracle of `parseAIResponse`. -/

/-- The collaborators `generateDiagram` reads: credential store, icon
catalog, network dispatch, and the id generator. -/
structure GenerationEnvironment where
  keys : ProviderId → Option String
  icons : List IconInfo
  dispatch : ProviderId → String → Except String String
  gen : Nat → String

/-- The falsiness test `!apiKey` on the credential-store result: both a
missing key (`undefined`) and an empty-string key are falsy. -/
def apiKeyMissing : Option String → Bool
  | none => true
  | some s => s = ""

/-- `generateDiagram` (source lines 82–117): resolve the API key and
reject when it is absent; otherwise build the prompt, dispatch it, and
normalize the response.  Any error thrown inside the try block — the
network call or an unrecognized provider — is re-raised as a single
`Failed to generate diagram:` error carrying the underlying message. -/
def generateDiagram (env : GenerationEnvironment) (request : DiagramGenerationRequest) :
    Except String DiagramGenerationResponse :=
  let apiKey := env.keys request.provider
  if apiKeyMissing apiKey then
    .error ("API key not found for " ++ request.provider.idString
      ++ ". Please configure your API key in settings.")
  else
    let prompt := buildPrompt request env.icons
    match env.dispatch request.provider prompt with
    | .error e => .error ("Failed to generate diagram: " ++ e)
    | .ok response =>
      match parseAIResponse env.gen response request.description with
      | .ok result => .ok result
      | .error e => .error ("Failed to generate diagram: " ++ e)

/-! ## `refineDescription` -/

/-- The clarifying-question prompt of `refineDescription` (source lines
473–486). -/
def refinePrompt (description : String) : String :=
  "\nAnalyze this diagram description and suggest 3-5 clarifying questions to help create a better flowchart:\n\nDescription: \""
    ++ description
    ++ "\"\n\nReturn a JSON array of questions that would help clarify:\n- Missing steps or processes\n- Decision points or conditions\n- Input/output requirements\n- User roles or actors involved\n- Exception handling or error cases\n\nFormat: [\"Question 1?\", \"Question 2?\", \"Question 3?\"]\n"

/-- The four static fallback questions of `refineDescription` (source
lines 511–516). -/
def fallbackQuestions : Json :=
  .arr [.str "What are the main steps in this process?",
        .str "Are there any decision points or conditions?",
        .str "Who are the main actors or users involved?",
        .str "What happens if something goes wrong?"]

/-- The body of the `try` block of `refineDescription` (source lines
488–508): dispatch the prompt, extract the bracketed substring, and
return `JSON.parse` of it — with no validation of the parsed shape. -/
def refineDescriptionTry (dispatch : ProviderId → String → Except String String)
    (description : String) (provider : ProviderId) : Except String Json :=
  match dispatch provider (refinePrompt description) with
  | .error e => .error e
  | .ok response =>
    let jsonString := extractBrackets response
    match jsonParse jsonString with
    | some v => .ok v
    | none => .error "SyntaxError: Unexpected token in JSON"

/-- `refineDescription` (source lines 468–518): the try-block body with
its catch-all handler substituting the four static questions.  The
declared TypeScript return type is `string[]`, but the function returns
whatever `JSON.parse` produced; the codomain is therefore `Json`. -/
def refineDescription (dispatch : ProviderId → String → Except String String)
    (description : String) (provider : ProviderId) : Except String Json :=
  match refineDescriptionTry dispatch description provider with
  | .ok v => .ok v
  | .error _ => .ok fallbackQuestions

/-- Whether a JSON value is an array all of whose elements are strings —
what the declared `string[]` return type of `refineDescription`
promises. -/
def isStringArray : Json → Bool
  | .arr xs => xs.all fun x => match x with | .str _ => true | _ => false
  | _ => false

/-! ## Helper lemmas about the normalizer -/

/-- The id a parsed element supplies, with `null` standing for a missing
field (used to compare supplied ids across elements). -/
def providedId (element : Json) : Json :=
  jsOr (jfield element "id") Json.null

theorem rebuildNode_ok (gen : Nat → String) (index k : Nat) (node : Json)
    (n : DiagramNode) (k2 : Nat) (h : rebuildNode gen index k node = .ok (n, k2)) :
    (n, k2) = rebuildNodeCore gen index k node := by
  unfold rebuildNode at h
  cases hg : getProp node "id" with
  | error e => simp [hg] at h
  | ok v => simp [hg] at h; exact h.symm

theorem rebuildEdge_ok (index : Nat) (edge : Json) (e : DiagramEdge)
    (h : rebuildEdge index edge = .ok e) : e = rebuildEdgeCore index edge := by
  unfold rebuildEdge at h
  cases hg : getProp edge "id" with
  | error e2 => simp [hg] at h
  | ok v => simp [hg] at h; exact h.symm

theorem rebuildNodes_length (gen : Nat → String) (ns : List Json) :
    ∀ (index k : Nat) (outs : List DiagramNode),
      rebuildNodes gen index k ns = .ok outs → outs.length = ns.length := by
  induction ns with
  | nil =>
    intro index k outs h
    simp [rebuildNodes] at h
    simp [← h]
  | cons node rest ih =>
    intro index k outs h
    unfold rebuildNodes at h
    cases h1 : rebuildNode gen index k node with
    | error e => simp [h1] at h
    | ok p =>
      obtain ⟨n1, k1⟩ := p
      simp only [h1] at h
      cases h2 : rebuildNodes gen (index + 1) k1 rest with
      | error e => simp [h2] at h
      | ok ns2 =>
        simp only [h2] at h
        have houts : n1 :: ns2 = outs := by simpa using h
        subst houts
        simp [ih (index + 1) k1 ns2 h2]

theorem rebuildNodes_get (gen : Nat → String) (ns : List Json) :
    ∀ (index k : Nat) (outs : List DiagramNode),
      rebuildNodes gen index k ns = .ok outs →
      ∀ (j : Nat) (hj : j < ns.length) (hj2 : j < outs.length),
        ∃ kj : Nat,
          outs.get ⟨j, hj2⟩ = (rebuildNodeCore gen (index + j) kj (ns.get ⟨j, hj⟩)).1 := by
  induction ns with
  | nil =>
    intro index k outs h j hj hj2
    exact absurd hj (by simp)
  | cons node rest ih =>
    intro index k outs h j hj hj2
    unfold rebuildNodes at h
    cases h1 : rebuildNode gen index k node with
    | error e => simp [h1] at h
    | ok p =>
      obtain ⟨n1, k1⟩ := p
      simp only [h1] at h
      cases h2 : rebuildNodes gen (index + 1) k1 rest with
      | error e => simp [h2] at h
      | ok ns2 =>
        simp only [h2] at h
        have houts : n1 :: ns2 = outs := by simpa using h
        subst houts
        cases j with
        | zero =>
          refine ⟨k, ?_⟩
          have hcore := rebuildNode_ok gen index k node n1 k1 h1
          simpa using congrArg Prod.fst hcore
        | succ jj =>
          obtain ⟨kj, hkj⟩ := ih (index + 1) k1 ns2 h2 jj
            (by simpa using Nat.lt_of_succ_lt_succ hj)
            (by simpa using Nat.lt_of_succ_lt_succ hj2)
          refine ⟨kj, ?_⟩
          have harith : index + 1 + jj = index + (jj + 1) := by omega
          rw [harith] at hkj
          simpa using hkj

theorem rebuildEdges_length (es : List Json) :
    ∀ (index : Nat) (outs : List DiagramEdge),
      rebuildEdges index es = .ok outs → outs.length = es.length := by
  induction es with
  | nil =>
    intro index outs h
    simp [rebuildEdges] at h
    simp [← h]
  | cons edge rest ih =>
    intro index outs h
    unfold rebuildEdges at h
    cases h1 : rebuildEdge index edge with
    | error e => simp [h1] at h
    | ok e1 =>
      simp only [h1] at h
      cases h2 : rebuildEdges (index + 1) rest with
      | error e => simp [h2] at h
      | ok es2 =>
        simp only [h2] at h
        have houts : e1 :: es2 = outs := by simpa using h
        subst houts
        simp [ih (index + 1) es2 h2]

theorem rebuildEdges_get (es : List Json) :
    ∀ (index : Nat) (outs : List DiagramEdge),
      rebuildEdges index es = .ok outs →
      ∀ (j : Nat) (hj : j < es.length) (hj2 : j < outs.length),
        outs.get ⟨j, hj2⟩ = rebuildEdgeCore (index + j) (es.get ⟨j, hj⟩) := by
  induction es with
  | nil =>
    intro index outs h j hj hj2
    exact absurd hj (by simp)
  | cons edge rest ih =>
    intro index outs h j hj hj2
    unfold rebuildEdges at h
    cases h1 : rebuildEdge index edge with
    | error e => simp [h1] at h
    | ok e1 =>
      simp only [h1] at h
      cases h2 : rebuildEdges (index + 1) rest with
      | error e => simp [h2] at h
      | ok es2 =>
        simp only [h2] at h
        have houts : e1 :: es2 = outs := by simpa using h
        subst houts
        cases j with
        | zero =>
          simpa using rebuildEdge_ok index edge e1 h1
        | succ jj =>
          have hkj := ih (index + 1) es2 h2 jj
            (by simpa using Nat.lt_of_succ_lt_succ hj)
            (by simpa using Nat.lt_of_succ_lt_succ hj2)
          have harith : index + 1 + jj = index + (jj + 1) := by omega
          rw [harith] at hkj
          simpa using hkj

theorem rebuildNodes_map_id (gen : Nat → String) (ns : List Json) :
    ∀ (index k : Nat) (outs : List DiagramNode),
      rebuildNodes gen index k ns = .ok outs →
      (∀ nd ∈ ns, ∃ v, jfield nd "id" = some v ∧ v.truthy = true) →
      outs.map DiagramNode.id = ns.map providedId := by
  induction ns with
  | nil =>
    intro index k outs h _
    simp [rebuildNodes] at h
    simp [← h]
  | cons node rest ih =>
    intro index k outs h hall
    unfold rebuildNodes at h
    cases h1 : rebuildNode gen index k node with
    | error e => simp [h1] at h
    | ok p =>
      obtain ⟨n1, k1⟩ := p
      simp only [h1] at h
      cases h2 : rebuildNodes gen (index + 1) k1 rest with
      | error e => simp [h2] at h
      | ok ns2 =>
        simp only [h2] at h
        have houts : n1 :: ns2 = outs := by simpa using h
        subst houts
        obtain ⟨v, hv, ht⟩ := hall node (List.mem_cons_self node rest)
        have hcore := rebuildNode_ok gen index k node n1 k1 h1
        have hid : n1.id = v := by
          have := congrArg (fun q => q.1.id) hcore
          simpa [rebuildNodeCore, hv, ht] using this
        have hpid : providedId node = v := by simp [providedId, jsOr, hv, ht]
        have htail := ih (index + 1) k1 ns2 h2 (fun nd hnd => hall nd (List.mem_cons_of_mem node hnd))
        simp [hid, hpid, htail]

theorem rebuildEdges_map_id (es : List Json) :
    ∀ (index : Nat) (outs : List DiagramEdge),
      rebuildEdges index es = .ok outs →
      (∀ ed ∈ es, ∃ v, jfield ed "id" = some v ∧ v.truthy = true) →
      outs.map DiagramEdge.id = es.map providedId := by
  induction es with
  | nil =>
    intro index outs h _
    simp [rebuildEdges] at h
    simp [← h]
  | cons edge rest ih =>
    intro index outs h hall
    unfold rebuildEdges at h
    cases h1 : rebuildEdge index edge with
    | error e => simp [h1] at h
    | ok e1 =>
      simp only [h1] at h
      cases h2 : rebuildEdges (index + 1) rest with
      | error e => simp [h2] at h
      | ok es2 =>
        simp only [h2] at h
        have houts : e1 :: es2 = outs := by simpa using h
        subst houts
        obtain ⟨v, hv, ht⟩ := hall edge (List.mem_cons_self edge rest)
        have hcore := rebuildEdge_ok index edge e1 h1
        have hid : e1.id = v := by
          have := congrArg DiagramEdge.id hcore
          simpa [rebuildEdgeCore, jsOr, hv, ht] using this
        have hpid : providedId edge = v := by simp [providedId, jsOr, hv, ht]
        have htail := ih (index + 1) es2 h2 (fun ed hed => hall ed (List.mem_cons_of_mem edge hed))
        simp [hid, hpid, htail]

theorem parseAIResponseTry_ok_inv (gen : Nat → String) (s d : String)
    (r : DiagramGenerationResponse) (h : parseAIResponseTry gen s d = .ok r) :
    ∃ parsed nodeList edgeList,
      jsonParse (extractBraces s) = some parsed ∧
      elemsOf parsed "nodes" "forEach" = .ok nodeList ∧
      rebuildNodes gen 0 0 nodeList = .ok r.nodes ∧
      elemsOf parsed "edges" "map" = .ok edgeList ∧
      rebuildEdges 0 edgeList = .ok r.edges := by
  unfold parseAIResponseTry at h
  cases hp : jsonParse (extractBraces s) with
  | none => simp [hp] at h
  | some parsed =>
    simp only [hp] at h
    cases hns : elemsOf parsed "nodes" "forEach" with
    | error e => simp [hns] at h
    | ok nodeList =>
      simp only [hns] at h
      cases hrn : rebuildNodes gen 0 0 nodeList with
      | error e => simp [hrn] at h
      | ok allNodes =>
        simp only [hrn] at h
        cases hes : elemsOf parsed "edges" "map" with
        | error e => simp [hes] at h
        | ok edgeList =>
          simp only [hes] at h
          cases hre : rebuildEdges 0 edgeList with
          | error e => simp [hre] at h
          | ok edges =>
            simp only [hre] at h
            cases h
            exact ⟨parsed, nodeList, edgeList, rfl, hns, hrn, hes, hre⟩

/-! ## Claim theorems -/

/-- A concrete `generateId` oracle used by witnesses and counterexamples. -/
def genDefault : Nat → String := fun k => "generated-" ++ toString k

/-- C1: for every raw response string (empty, non-JSON, truncated JSON or
valid JSON alike) and every original description, `parseAIResponse`
resolves with a `DiagramGenerationResponse` and never throws — every
failure to extract, parse, or reconstruct is absorbed by its catch-all
handler, which substitutes the fallback diagram. -/
theorem C1_normalizer_never_throws (gen : Nat → String) (s d : String) :
    (parseAIResponse gen s d).toOption.isSome = true := by
  unfold parseAIResponse
  cases parseAIResponseTry gen s d <;> rfl

/-- C2: for every response whose extracted substring is not parseable
JSON, `parseAIResponse` returns exactly the fixed 3-node linear fallback
graph Start → Process → End in which the Process node's content is the
original description verbatim, the title is `Simple Diagram`, exactly two
edges connect the three nodes in sequence, and `suggestions` holds the
single static hint. -/
theorem C2_fallback_determinism (gen : Nat → String) (s d : String)
    (h : jsonParse (extractBraces s) = none) :
    parseAIResponse gen s d = .ok
      { title := .str "Simple Diagram"
        description := .str d
        nodes :=
          [ { id := .str "start-1", type := "custom",
              position := .obj [("x", .num 100), ("y", .num 50)],
              data := { title := .str "Start", content := .str "Starting point",
                        backgroundColor := none, borderColor := none,
                        textColor := none, iconPath := none } },
            { id := .str "process-1", type := "custom",
              position := .obj [("x", .num 100), ("y", .num 150)],
              data := { title := .str "Process", content := .str d,
                        backgroundColor := some (.str "#ffffff"),
                        borderColor := some (.str "#d1d5db"),
                        textColor := some (.str "#1f2937"), iconPath := none } },
            { id := .str "end-1", type := "custom",
              position := .obj [("x", .num 100), ("y", .num 250)],
              data := { title := .str "End", content := .str "Completion point",
                        backgroundColor := none, borderColor := none,
                        textColor := none, iconPath := none } } ]
        edges :=
          [ { id := .str "e1-2", source := some (.str "start-1"),
              target := some (.str "process-1"),
              type := none, label := none, animated := none },
            { id := .str "e2-3", source := some (.str "process-1"),
              target := some (.str "end-1"),
              type := none, label := none, animated := none } ]
        suggestions := .arr [.str "Add more detail to your description for better results"] } := by
  simp only [parseAIResponse, parseAIResponseTry, h]
  rfl

/-- Witness for C2 at the concrete non-JSON response `not json at all`. -/
theorem C2_fallback_determinism_witness :
    jsonParse (extractBraces "not json at all") = none ∧
    parseAIResponse genDefault "not json at all" "X" = .ok
      { title := .str "Simple Diagram"
        description := .str "X"
        nodes :=
          [ { id := .str "start-1", type := "custom",
              position := .obj [("x", .num 100), ("y", .num 50)],
              data := { title := .str "Start", content := .str "Starting point",
                        backgroundColor := none, borderColor := none,
                        textColor := none, iconPath := none } },
            { id := .str "process-1", type := "custom",
              position := .obj [("x", .num 100), ("y", .num 150)],
              data := { title := .str "Process", content := .str "X",
                        backgroundColor := some (.str "#ffffff"),
                        borderColor := some (.str "#d1d5db"),
                        textColor := some (.str "#1f2937"), iconPath := none } },
            { id := .str "end-1", type := "custom",
              position := .obj [("x", .num 100), ("y", .num 250)],
              data := { title := .str "End", content := .str "Completion point",
                        backgroundColor := none, borderColor := none,
                        textColor := none, iconPath := none } } ]
        edges :=
          [ { id := .str "e1-2", source := some (.str "start-1"),
              target := some (.str "process-1"),
              type := none, label := none, animated := none },
            { id := .str "e2-3", source := some (.str "process-1"),
              target := some (.str "end-1"),
              type := none, label := none, animated := none } ]
        suggestions := .arr [.str "Add more detail to your description for better results"] } :=
  ⟨rfl, C2_fallback_determinism genDefault "not json at all" "X" rfl⟩

/-- C3 as stated is false: `parseAIResponse` passes supplied node ids
through verbatim, so a response that parses successfully and supplies the
id `a` for two different nodes yields a graph whose node ids are not
pairwise distinct. -/
theorem C3_counterexample :
    (parseAIResponseTry genDefault "\x7b\"nodes\":[\x7b\"id\":\"a\"\x7d,\x7b\"id\":\"a\"\x7d],\"edges\":[]\x7d" "d").map
        (fun r => r.nodes.map DiagramNode.id) = .ok [Json.str "a", Json.str "a"]
    ∧ ¬ ([Json.str "a", Json.str "a"] : List Json).Nodup := by
  refine ⟨rfl, ?_⟩
  simp

/-- C3 amended: on the success path, when every parsed node supplies a
truthy `id` and those supplied ids are pairwise distinct, the returned
node ids are pairwise distinct, and likewise for edges.  (Without these
conditions duplicates survive: supplied ids are passed through verbatim
and generated ids are not checked against supplied ones.) -/
theorem C3_id_uniqueness (gen : Nat → String) (s d : String)
    {r : DiagramGenerationResponse} {parsed : Json} {ns es : List Json}
    (hok : parseAIResponseTry gen s d = .ok r)
    (hp : jsonParse (extractBraces s) = some parsed)
    (hns : elemsOf parsed "nodes" "forEach" = .ok ns)
    (hes : elemsOf parsed "edges" "map" = .ok es)
    (hnid : ∀ nd ∈ ns, ∃ v, jfield nd "id" = some v ∧ v.truthy = true)
    (hndup : (ns.map providedId).Nodup)
    (heid : ∀ ed ∈ es, ∃ v, jfield ed "id" = some v ∧ v.truthy = true)
    (hedup : (es.map providedId).Nodup) :
    (r.nodes.map DiagramNode.id).Nodup ∧ (r.edges.map DiagramEdge.id).Nodup := by
  obtain ⟨parsed2, ns2, es2, hp2, hns2, hrn, hes2, hre⟩ := parseAIResponseTry_ok_inv gen s d r hok
  rw [hp] at hp2
  obtain rfl := Option.some.inj hp2
  rw [hns] at hns2
  obtain rfl := Except.ok.inj hns2
  rw [hes] at hes2
  obtain rfl := Except.ok.inj hes2
  constructor
  · rw [rebuildNodes_map_id gen ns 0 0 r.nodes hrn hnid]
    exact hndup
  · rw [rebuildEdges_map_id es 0 r.edges hre heid]
    exact hedup

/-- Witness for the amended C3: a response supplying the distinct node
ids `a`, `b` and the distinct edge ids `p`, `q` yields pairwise-distinct
returned ids. -/
theorem C3_id_uniqueness_witness :
    (match parseAIResponseTry genDefault
        "\x7b\"nodes\":[\x7b\"id\":\"a\"\x7d,\x7b\"id\":\"b\"\x7d],\"edges\":[\x7b\"id\":\"p\"\x7d,\x7b\"id\":\"q\"\x7d]\x7d" "d" with
     | .ok r => (r.nodes.map DiagramNode.id).Nodup ∧ (r.edges.map DiagramEdge.id).Nodup
     | .error _ => False) :=
  C3_id_uniqueness genDefault
    "\x7b\"nodes\":[\x7b\"id\":\"a\"\x7d,\x7b\"id\":\"b\"\x7d],\"edges\":[\x7b\"id\":\"p\"\x7d,\x7b\"id\":\"q\"\x7d]\x7d" "d"
    rfl rfl rfl rfl
    (by intro nd h; simp only [List.mem_cons, List.mem_singleton, List.not_mem_nil, or_false] at h
        rcases h with rfl | rfl <;> exact ⟨_, rfl, rfl⟩)
    (by simp [providedId, jfield, lookupLast, jsOr, Json.truthy])
    (by intro ed h; simp only [List.mem_cons, List.mem_singleton, List.not_mem_nil, or_false] at h
        rcases h with rfl | rfl <;> exact ⟨_, rfl, rfl⟩)
    (by simp [providedId, jfield, lookupLast, jsOr, Json.truthy])

/-- C4 as stated is false: for a container request whose description has
no workflow keyword, the claim demands `animated === true` on generated
edges when the model omits the field, but `parseAIResponse` defaults an
omitted `animated` to `false` regardless of the description — the
heuristic only chooses the value requested in the prompt. -/
theorem C4_counterexample :
    isWorkflowType "hello" = false
    ∧ animatedEdgesFor DiagramType.container "hello" = true
    ∧ (parseAIResponseTry genDefault
        "\x7b\"nodes\":[],\"edges\":[\x7b\"source\":\"a\",\"target\":\"b\"\x7d]\x7d" "hello").map
        (fun r => r.edges.map DiagramEdge.animated) = .ok [some (Json.bool false)]
    ∧ (some (Json.bool false) : Option Json) ≠ some (Json.bool true) := by
  refine ⟨rfl, rfl, rfl, ?_⟩
  simp

/-- C4 amended: for diagramType `container` the workflow-keyword
heuristic determines only the `animated` value `buildPrompt` requests in
the prompt's edge schema (`false` when a workflow keyword matches,
`true` otherwise); when the parsed model edges omit the `animated`
field, every generated edge has `animated === false` regardless of the
description. -/
theorem C4_animation_heuristic :
    (∀ desc, isWorkflowType desc = true →
        animatedEdgesFor DiagramType.container desc = false)
    ∧ (∀ desc, isWorkflowType desc = false →
        animatedEdgesFor DiagramType.container desc = true)
    ∧ (∀ (index : Nat) (es : List Json) (outs : List DiagramEdge),
        rebuildEdges index es = .ok outs →
        ∀ (j : Nat) (hj : j < es.length) (hj2 : j < outs.length),
          jfield (es.get ⟨j, hj⟩) "animated" = none →
          (outs.get ⟨j, hj2⟩).animated = some (Json.bool false)) := by
  refine ⟨?_, ?_, ?_⟩
  · intro desc h
    simp [animatedEdgesFor, h]
  · intro desc h
    simp [animatedEdgesFor, h]
  · intro index es outs h j hj hj2 hf
    rw [rebuildEdges_get es index outs h j hj hj2]
    show some (jsOr (jfield (es.get ⟨j, hj⟩) "animated") (.bool false)) = _
    rw [hf]
    rfl

/-- Witness for the amended C4: a workflow description forces the prompt
request off, a plain description forces it on, and a parsed edge without
`animated` comes back with `animated = false`. -/
theorem C4_animation_heuristic_witness :
    animatedEdgesFor DiagramType.container "build the workflow" = false
    ∧ animatedEdgesFor DiagramType.container "web app" = true
    ∧ (rebuildEdgeCore 0 (Json.obj [("source", Json.str "a")])).animated
        = some (Json.bool false) :=
  ⟨C4_animation_heuristic.1 "build the workflow" rfl,
   C4_animation_heuristic.2.1 "web app" rfl,
   C4_animation_heuristic.2.2 0 [Json.obj [("source", Json.str "a")]] _ rfl 0
     (by simp) (by decide) rfl⟩

/-- C5 as stated is false: on the fallback path the `Start` and `End`
nodes carry only `title` and `content` — their `backgroundColor` (and
`borderColor`, `textColor`) are left undefined, against the claim that
those fields are defined on every node of both paths. -/
theorem C5_counterexample :
    (parseAIResponse genDefault "x" "d").map
        (fun r => r.nodes.map (fun n => n.data.backgroundColor.isSome)) = .ok [false, true, false]
    ∧ [false, true, false] ≠ [true, true, true] := by
  refine ⟨rfl, ?_⟩
  simp

/-- C5 amended: every node returned on either path has `type = custom`,
and `title` and `content` are always defined; on the success path every
node's `backgroundColor`, `borderColor` and `textColor` are also defined
(only `iconPath` is optional), while on the fallback path only the
middle `Process` node carries the three color fields. -/
theorem C5_node_schema (gen : Nat → String) (s d : String) :
    (∀ r, parseAIResponse gen s d = .ok r → ∀ n ∈ r.nodes, n.type = "custom")
    ∧ (∀ r, parseAIResponseTry gen s d = .ok r → ∀ n ∈ r.nodes,
        n.data.backgroundColor.isSome = true
        ∧ n.data.borderColor.isSome = true
        ∧ n.data.textColor.isSome = true)
    ∧ (createFallbackDiagram d).nodes.map (fun n => n.data.backgroundColor.isSome)
        = [false, true, false] := by
  have hsucc : ∀ r, parseAIResponseTry gen s d = .ok r → ∀ n ∈ r.nodes,
      n.type = "custom"
      ∧ n.data.backgroundColor.isSome = true
      ∧ n.data.borderColor.isSome = true
      ∧ n.data.textColor.isSome = true := by
    intro r hok n hn
    obtain ⟨parsed, ns, es, hp, hns, hrn, hes, hre⟩ := parseAIResponseTry_ok_inv gen s d r hok
    obtain ⟨⟨j, hj2⟩, hget⟩ := List.mem_iff_get.mp hn
    have hlen := rebuildNodes_length gen ns 0 0 r.nodes hrn
    obtain ⟨kj, hkj⟩ := rebuildNodes_get gen ns 0 0 r.nodes hrn j (by omega) hj2
    rw [← hget, hkj]
    exact ⟨rfl, rfl, rfl, rfl⟩
  refine ⟨?_, ?_, rfl⟩
  · intro r hok n hn
    unfold parseAIResponse at hok
    cases htry : parseAIResponseTry gen s d with
    | ok r2 =>
      rw [htry] at hok
      obtain rfl := Except.ok.inj hok
      exact (hsucc r2 htry n hn).1
    | error e =>
      rw [htry] at hok
      obtain rfl := Except.ok.inj hok
      simp only [createFallbackDiagram, List.mem_cons, List.not_mem_nil, or_false] at hn
      rcases hn with rfl | rfl | rfl <;> rfl
  · intro r hok n hn
    exact (hsucc r hok n hn).2

/-- Witness for the amended C5 at a concrete parsed response with one
node that supplies nothing: the returned node is `custom` and carries
all three default colors. -/
theorem C5_node_schema_witness :
    (match parseAIResponse genDefault "\x7b\"nodes\":[\x7b\x7d],\"edges\":[]\x7d" "d" with
     | .ok r => ∀ n ∈ r.nodes, n.type = "custom"
     | .error _ => False)
    ∧ (match parseAIResponseTry genDefault "\x7b\"nodes\":[\x7b\x7d],\"edges\":[]\x7d" "d" with
       | .ok r => ∀ n ∈ r.nodes,
           n.data.backgroundColor.isSome = true
           ∧ n.data.borderColor.isSome = true
           ∧ n.data.textColor.isSome = true
       | .error _ => False) :=
  ⟨(C5_node_schema genDefault "\x7b\"nodes\":[\x7b\x7d],\"edges\":[]\x7d" "d").1 _ rfl,
   (C5_node_schema genDefault "\x7b\"nodes\":[\x7b\x7d],\"edges\":[]\x7d" "d").2.1 _ rfl⟩

/-- C6: when the provider call inside `generateDiagram` fails, the error
is caught and re-raised as a single generation-failure error carrying the
underlying message, and the fallback diagram is not returned — the
fallback path is internal to `parseAIResponse` and is reached only for
malformed-but-present responses. -/
theorem C6_dispatch_error (env : GenerationEnvironment) (request : DiagramGenerationRequest)
    (k m : String) (hk : env.keys request.provider = some k) (hk2 : k ≠ "")
    (hd : env.dispatch request.provider (buildPrompt request env.icons) = .error m) :
    generateDiagram env request = .error ("Failed to generate diagram: " ++ m)
    ∧ ∀ r, generateDiagram env request ≠ .ok r := by
  have hmiss : apiKeyMissing (env.keys request.provider) = false := by
    rw [hk]
    simp [apiKeyMissing, hk2]
  have h1 : generateDiagram env request = .error ("Failed to generate diagram: " ++ m) := by
    unfold generateDiagram
    simp only [hmiss, hd, Bool.false_eq_true, if_false]
  refine ⟨h1, ?_⟩
  intro r hr
  rw [h1] at hr
  exact absurd hr (by simp)

/-- Witness for C6 with a concrete environment whose dispatch fails with
`Network error`. -/
theorem C6_dispatch_error_witness :
    generateDiagram
      { keys := fun _ => some "sk-test", icons := [],
        dispatch := fun _ _ => .error "Network error", gen := genDefault }
      { description := "a login flow", provider := ProviderId.groq }
      = .error "Failed to generate diagram: Network error" :=
  (C6_dispatch_error
    { keys := fun _ => some "sk-test", icons := [],
      dispatch := fun _ _ => .error "Network error", gen := genDefault }
    { description := "a login flow", provider := ProviderId.groq }
    "sk-test" "Network error" rfl (by decide) rfl).1

/-- C7: when no API key is stored for the requested provider,
`generateDiagram` rejects with the missing-API-key error.  The statement
holds for every dispatch function and icon list in the environment, so
the rejection does not depend on the prompt or on any provider call, and
the error is a rejection — never a fallback diagram. -/
theorem C7_missing_key (env : GenerationEnvironment) (request : DiagramGenerationRequest)
    (h : env.keys request.provider = none) :
    generateDiagram env request = .error ("API key not found for "
      ++ request.provider.idString ++ ". Please configure your API key in settings.") := by
  unfold generateDiagram
  rw [h]
  rfl

/-- Witness for C7: a concrete environment with no stored key for `groq`
rejects with the exact missing-key message. -/
theorem C7_missing_key_witness :
    generateDiagram
      { keys := fun _ => none, icons := [],
        dispatch := fun _ _ => .ok "", gen := genDefault }
      { description := "a login flow", provider := ProviderId.groq }
      = .error "API key not found for groq. Please configure your API key in settings." :=
  C7_missing_key
    { keys := fun _ => none, icons := [],
      dispatch := fun _ _ => .ok "", gen := genDefault }
    { description := "a login flow", provider := ProviderId.groq }
    rfl

/-- C8: `refineDescription` never rejects, and on every failure inside it
— a dispatch error, or a JSON parse failure of the response — it
resolves with exactly the four static clarifying questions. -/
theorem C8_refine_failure (dispatch : ProviderId → String → Except String String)
    (desc : String) (p : ProviderId) :
    (refineDescription dispatch desc p).toOption.isSome = true
    ∧ (∀ m, dispatch p (refinePrompt desc) = .error m →
        refineDescription dispatch desc p = .ok (Json.arr
          [.str "What are the main steps in this process?",
           .str "Are there any decision points or conditions?",
           .str "Who are the main actors or users involved?",
           .str "What happens if something goes wrong?"]))
    ∧ (∀ resp, dispatch p (refinePrompt desc) = .ok resp →
        jsonParse (extractBrackets resp) = none →
        refineDescription dispatch desc p = .ok (Json.arr
          [.str "What are the main steps in this process?",
           .str "Are there any decision points or conditions?",
           .str "Who are the main actors or users involved?",
           .str "What happens if something goes wrong?"])) := by
  refine ⟨?_, ?_, ?_⟩
  · unfold refineDescription
    cases refineDescriptionTry dispatch desc p <;> rfl
  · intro m hm
    unfold refineDescription refineDescriptionTry
    rw [hm]
    rfl
  · intro resp hr hp
    unfold refineDescription refineDescriptionTry
    rw [hr]
    simp only [hp]
    rfl

/-- Witness for C8: a failing dispatch and a non-JSON response both
resolve with the four static questions. -/
theorem C8_refine_failure_witness :
    refineDescription (fun _ _ => .error "Network error") "a flow" ProviderId.groq
      = .ok (Json.arr
          [.str "What are the main steps in this process?",
           .str "Are there any decision points or conditions?",
           .str "Who are the main actors or users involved?",
           .str "What happens if something goes wrong?"])
    ∧ refineDescription (fun _ _ => .ok "no array here") "a flow" ProviderId.gemini
      = .ok (Json.arr
          [.str "What are the main steps in this process?",
           .str "Are there any decision points or conditions?",
           .str "Who are the main actors or users involved?",
           .str "What happens if something goes wrong?"]) :=
  ⟨(C8_refine_failure (fun _ _ => .error "Network error") "a flow" ProviderId.groq).2.1
      "Network error" rfl,
   (C8_refine_failure (fun _ _ => .ok "no array here") "a flow" ProviderId.gemini).2.2
      "no array here" rfl rfl⟩

/-- C9: when the i-th parsed node (0-based) has no `position` field, the
i-th returned node's position is the grid slot
`(x, y) = (100 + 300·(i mod 3), 100 + 200·⌊i/3⌋)`; a node that supplies
a position object keeps it unchanged.  (A falsy non-object `position`
value such as `null` or `0` is also replaced by the grid slot; the data
model's position is an `(x, y)` object, which is always truthy.) -/
theorem C9_default_positioning (gen : Nat → String) (k : Nat) (ns : List Json)
    (outs : List DiagramNode) (h : rebuildNodes gen 0 k ns = .ok outs) :
    outs.length = ns.length
    ∧ ∀ (j : Nat) (hj : j < ns.length) (hj2 : j < outs.length),
      (jfield (ns.get ⟨j, hj⟩) "position" = none →
        (outs.get ⟨j, hj2⟩).position =
          Json.obj [("x", .num ((100 + 300 * (j % 3) : ℕ) : ℚ)),
                    ("y", .num ((100 + 200 * (j / 3) : ℕ) : ℚ))])
      ∧ (∀ fs, jfield (ns.get ⟨j, hj⟩) "position" = some (Json.obj fs) →
          (outs.get ⟨j, hj2⟩).position = Json.obj fs) := by
  refine ⟨rebuildNodes_length gen ns 0 k outs h, ?_⟩
  intro j hj hj2
  obtain ⟨kj, hkj⟩ := rebuildNodes_get gen ns 0 k outs h j hj hj2
  have hpos : (outs.get ⟨j, hj2⟩).position
      = jsOr (jfield (ns.get ⟨j, hj⟩) "position") (defaultPosition (0 + j)) := by
    rw [hkj]
    rfl
  constructor
  · intro hf
    rw [hpos, hf]
    show defaultPosition (0 + j) = _
    rw [Nat.zero_add]
    unfold defaultPosition
    have h300 : j % 3 * 300 + 100 = 100 + 300 * (j % 3) := by ring
    have h200 : j / 3 * 200 + 100 = 100 + 200 * (j / 3) := by ring
    rw [h300, h200]
  · intro fs hf
    rw [hpos, hf]
    rfl

/-- Witness for C9: a node without `position` lands on the grid origin,
and a node that supplies a position object keeps it. -/
theorem C9_default_positioning_witness :
    (rebuildNodeCore genDefault 0 0 (Json.obj [])).1.position
      = Json.obj [("x", Json.num 100), ("y", Json.num 100)]
    ∧ (rebuildNodeCore genDefault 1 1 (Json.obj [("position",
        Json.obj [("x", Json.num 7)])])).1.position
      = Json.obj [("x", Json.num 7)] := by
  have h := C9_default_positioning genDefault 0
    [Json.obj [], Json.obj [("position", Json.obj [("x", Json.num 7)])]] _ rfl
  constructor
  · have h0 := (h.2 0 (by decide) (by decide)).1 rfl
    simpa using h0
  · have h1 := (h.2 1 (by decide) (by decide)).2 [("x", Json.num 7)] rfl
    simpa using h1

/-- C10: `refineDescription` resolves with the raw `JSON.parse` result of
the extracted bracketed substring without validating that it is an array
of strings, so a response such as `[1, 2]` makes it resolve with a value
that is not a string array, despite the declared `string[]` return
type. -/
theorem C10_refine_unvalidated (dispatch : ProviderId → String → Except String String)
    (desc : String) (p : ProviderId) :
    (∀ resp v, dispatch p (refinePrompt desc) = .ok resp →
        jsonParse (extractBrackets resp) = some v →
        refineDescription dispatch desc p = .ok v)
    ∧ (dispatch p (refinePrompt desc) = .ok "[1, 2]" →
        refineDescription dispatch desc p = .ok (Json.arr [Json.num 1, Json.num 2])
        ∧ isStringArray (Json.arr [Json.num 1, Json.num 2]) = false) := by
  constructor
  · intro resp v hr hp
    unfold refineDescription refineDescriptionTry
    rw [hr]
    simp only [hp]
  · intro hr
    refine ⟨?_, rfl⟩
    unfold refineDescription refineDescriptionTry
    rw [hr]
    rfl

/-- Witness for C10: a dispatch returning the text `[1, 2]` makes
`refineDescription` resolve with the JSON array `[1, 2]`, which is not
an array of strings. -/
theorem C10_refine_unvalidated_witness :
    refineDescription (fun _ _ => .ok "[1, 2]") "desc" ProviderId.openrouter
      = .ok (Json.arr [Json.num 1, Json.num 2])
    ∧ isStringArray (Json.arr [Json.num 1, Json.num 2]) = false :=
  (C10_refine_unvalidated (fun _ _ => .ok "[1, 2]") "desc" ProviderId.openrouter).2 rfl

end TechDraw
